import Mathlib

/-!
Verification of the weapon fire-mode simulation core (`weapon.py`) from the
warframe-simulacrum repository.

The Python code is shallowly embedded over exact rational arithmetic (`ℚ`):
damage vectors become functions `Fin 20 → ℚ`, the `Parameter` family becomes
plain structures, the per-stat modifier dictionaries become records with one
field per named contribution, and the stateful methods (`apply_mods`, `reset`,
`pull_trigger`) become pure state-transforming functions.  Python's `round`
(and `numpy.round`) is round-half-to-even; Python's `int()` truncates toward
zero; Python's `x % 1` equals `x - ⌊x⌋`.
-/

namespace Simulacrum

/-- Round half to even, the rounding used by Python `round(x, 0)` and
`numpy.round(x, 0)`. -/
def pyRound (q : ℚ) : ℤ :=
  if q - ⌊q⌋ < 1/2 then ⌊q⌋
  else if 1/2 < q - ⌊q⌋ then ⌊q⌋ + 1
  else if ⌊q⌋ % 2 = 0 then ⌊q⌋ else ⌊q⌋ + 1

/-- Truncation toward zero, the conversion performed by Python `int(x)`. -/
def ratTrunc (q : ℚ) : ℤ := if 0 ≤ q then ⌊q⌋ else ⌈q⌉

/-- A 20-slot damage vector, indexed by damage type.  Slots 0-2 are physical
(impact/puncture/slash); slots 3-6 are heat/cold/electric/toxin. -/
abbrev DmgVec := Fin 20 → ℚ

/-- Sum of all slots of a damage vector (Python `sum(np_array)`). -/
def vsum (v : DmgVec) : ℚ := ∑ i, v i

/-- `Parameter`: base value plus a derived modded value. -/
structure Parameter where
  base : ℚ
  modded : ℚ
deriving DecidableEq

/-- Python `Parameter(base)`. -/
def Parameter.ofBase (b : ℚ) : Parameter := ⟨b, b⟩

/-- `Parameter.reset`: `modded := base`. -/
def Parameter.reset (p : Parameter) : Parameter := { p with modded := p.base }

/-- `ModifyParameter`: base, modded, plus a mutable `current` field
(used for the magazine ammo count). -/
structure ModifyParameter where
  base : ℚ
  modded : ℚ
  current : ℚ
deriving DecidableEq

/-- Python `ModifyParameter(base)`. -/
def ModifyParameter.ofBase (b : ℚ) : ModifyParameter := ⟨b, b, b⟩

/-- `ModifyParameter.reset`: `modded := base` and then `current := modded`. -/
def ModifyParameter.reset (p : ModifyParameter) : ModifyParameter :=
  { p with modded := p.base, current := p.base }

/-- `DamageParameter`: vector-valued base, modded and quantized values. -/
structure DamageParameter where
  base : DmgVec
  modded : DmgVec
  quantized : DmgVec

/-- Python `DamageParameter(base)`. -/
def DamageParameter.ofBase (b : DmgVec) : DamageParameter := ⟨b, b, b⟩

/-- `DamageParameter.reset`: `modded := base`, `quantized := base`. -/
def DamageParameter.reset (p : DamageParameter) : DamageParameter :=
  { p with modded := p.base, quantized := p.base }

/-- `DamageParameter.multiply(val)`: scales `modded` and `quantized` in place. -/
def DamageParameter.multiply (p : DamageParameter) (val : ℚ) : DamageParameter :=
  { p with modded := fun i => p.modded i * val, quantized := fun i => p.quantized i * val }

/-! ### Modifier buckets

One structure per modifier dictionary of `FireMode.__init__`, with a field per
named contribution and a definition giving its construction-time defaults. -/

/-- `damagePerShot_m`. -/
structure DamagePerShotMods where
  base : ℚ
  condition_overload_base : ℚ
  condition_overload_multiplier : ℚ
  direct : ℚ
  final_multiplier : ℚ
  multishot_multiplier : ℚ
deriving DecidableEq

/-- Defaults of `damagePerShot_m` at construction. -/
def damagePerShotModsDefault : DamagePerShotMods :=
  { base := 0, condition_overload_base := 0, condition_overload_multiplier := 0,
    direct := 0, final_multiplier := 1, multishot_multiplier := 1 }

/-- `bonusDamagePerShot_m`. -/
structure BonusDamageMods where
  additive_base : ℚ
deriving DecidableEq

/-- Defaults of `bonusDamagePerShot_m` at construction. -/
def bonusDamageModsDefault : BonusDamageMods := { additive_base := 0 }

/-- `criticalChance_m`. -/
structure CriticalChanceMods where
  base : ℚ
  additive_base : ℚ
  additive_final : ℚ
  covenant : ℚ
  deadly_munitions : ℚ
deriving DecidableEq

/-- Defaults of `criticalChance_m` at construction. -/
def criticalChanceModsDefault : CriticalChanceMods :=
  { base := 0, additive_base := 0, additive_final := 0, covenant := 0, deadly_munitions := 1 }

/-- `criticalMultiplier_m`. -/
structure CriticalMultiplierMods where
  base : ℚ
  additive_base : ℚ
  additive_final : ℚ
  final_multiplier : ℚ
deriving DecidableEq

/-- Defaults of `criticalMultiplier_m` at construction. -/
def criticalMultiplierModsDefault : CriticalMultiplierMods :=
  { base := 0, additive_base := 0, additive_final := 0, final_multiplier := 1 }

/-- `procChance_m`. -/
structure ProcChanceMods where
  base : ℚ
  additive_base : ℚ
  additive_final : ℚ
  final_multiplier : ℚ
  multishot_multiplier : ℚ
deriving DecidableEq

/-- Defaults of `procChance_m` at construction. -/
def procChanceModsDefault : ProcChanceMods :=
  { base := 0, additive_base := 0, additive_final := 0,
    final_multiplier := 1, multishot_multiplier := 1 }

/-- Buckets of the shape `{"base": 0}` (magazineSize, reloadTime, multishot,
blast, radiation, gas, magnetic, viral, corrosive, statusDuration,
factionDamage). -/
structure SingleMods where
  base : ℚ
deriving DecidableEq

/-- Defaults of a `{"base": 0}` bucket at construction. -/
def singleModsDefault : SingleMods := { base := 0 }

/-- `fireRate_m`. -/
structure FireRateMods where
  base : ℚ
  final_multiplier : ℚ
deriving DecidableEq

/-- Defaults of `fireRate_m` at construction. -/
def fireRateModsDefault : FireRateMods := { base := 0, final_multiplier := 1 }

/-- Buckets of the shape `{"base": 0, "uncombinable": 0}` (heat, cold,
electric, toxin). -/
structure ElemMods where
  base : ℚ
  uncombinable : ℚ
deriving DecidableEq

/-- Defaults of an elemental bucket at construction. -/
def elemModsDefault : ElemMods := { base := 0, uncombinable := 0 }

/-- Buckets of the shape `{"base": 0, "stance": 0}` (impact, puncture, slash). -/
structure PhysMods where
  base : ℚ
  stance : ℚ
deriving DecidableEq

/-- Defaults of a physical bucket at construction. -/
def physModsDefault : PhysMods := { base := 0, stance := 0 }

/-- `ammoCost_m`. -/
structure AmmoCostMods where
  base : ℚ
  energized_munitions : ℚ
deriving DecidableEq

/-- Defaults of `ammoCost_m` at construction. -/
def ammoCostModsDefault : AmmoCostMods := { base := 0, energized_munitions := 0 }

/-! ### FireModeEffect -/

/-- A secondary effect, `FireModeEffect`.  Fields read from its own data
record are plain values (`Sum.inl`); fields that fall back to the parent fire
mode's attribute hold that attribute object itself (`Sum.inr`), exactly as the
dynamically-typed Python defaults `fire_mode.damagePerShot`,
`fire_mode.criticalChance`, ... do. -/
structure FireModeEffect where
  damagePerShot : DmgVec ⊕ DamageParameter
  criticalChance : ℚ ⊕ Parameter
  criticalMultiplier : ℚ ⊕ Parameter
  procChance : ℚ ⊕ Parameter
  multishot : ℚ
  embedDelay : ℚ
  forcedProc : List ℕ

/-! ### FireMode state -/

/-- The full mutable state of a `FireMode`: base/derived parameters plus the
modifier buckets.  `procCumulativeProbabilities` is rebound to the scalar `0`
by `apply_mods` in Python; it is modelled as the zero vector. -/
structure FireMode where
  trigger : String
  attack_index : ℕ
  damagePerShot : DamageParameter
  elementalDamagePerShot : DamageParameter
  criticalChance : Parameter
  criticalMultiplier : Parameter
  procChance : Parameter
  procProbabilities : DmgVec
  procCumulativeProbabilities : DmgVec
  magazineSize : ModifyParameter
  fireRate : Parameter
  reloadTime : Parameter
  multishot : Parameter
  ammoCost : Parameter
  chargeTime : Parameter
  embedDelay : Parameter
  forcedProc : List ℕ
  radial : Bool
  fire_mode_effects : List FireModeEffect
  damagePerShot_m : DamagePerShotMods
  bonusDamagePerShot_m : BonusDamageMods
  criticalChance_m : CriticalChanceMods
  criticalMultiplier_m : CriticalMultiplierMods
  procChance_m : ProcChanceMods
  magazineSize_m : SingleMods
  fireRate_m : FireRateMods
  reloadTime_m : SingleMods
  multishot_m : SingleMods
  heat_m : ElemMods
  cold_m : ElemMods
  electric_m : ElemMods
  toxin_m : ElemMods
  blast_m : SingleMods
  radiation_m : SingleMods
  gas_m : SingleMods
  magnetic_m : SingleMods
  viral_m : SingleMods
  corrosive_m : SingleMods
  impact_m : PhysMods
  puncture_m : PhysMods
  slash_m : PhysMods
  statusDuration_m : SingleMods
  factionDamage_m : SingleMods
  ammoCost_m : AmmoCostMods

/-- `FireMode.reset`.  It resets `attack_index` and calls the `reset` of every
parameter object; it touches no modifier bucket. -/
def FireMode.reset (fm : FireMode) : FireMode :=
  { fm with
    attack_index := 1
    damagePerShot := fm.damagePerShot.reset
    elementalDamagePerShot := fm.elementalDamagePerShot.reset
    criticalChance := fm.criticalChance.reset
    criticalMultiplier := fm.criticalMultiplier.reset
    procChance := fm.procChance.reset
    magazineSize := fm.magazineSize.reset
    fireRate := fm.fireRate.reset
    reloadTime := fm.reloadTime.reset
    multishot := fm.multishot.reset
    ammoCost := fm.ammoCost.reset
    chargeTime := fm.chargeTime.reset
    embedDelay := fm.embedDelay.reset }

/-- `FireMode.load_mods`: overwrites `damagePerShot_m["base"] := 0` and
`damagePerShot_m["final_multiplier"] := 1`. -/
def FireMode.load_mods (fm : FireMode) : FireMode :=
  { fm with
    damagePerShot_m := { fm.damagePerShot_m with base := 0, final_multiplier := 1 } }

/-! The intermediate values of `apply_mods` (the Python locals `weights`,
`damagePerShot_bonus`, `total_base_damage`, `quanta`, `tot_weight`, and the
right-hand sides of the field assignments) are given as named definitions, and
`FireMode.apply_mods` assembles them. -/

/-- Line 127: `weights = damagePerShot.base / max(sum(damagePerShot.base), 0.01)`. -/
def FireMode.weights (fm : FireMode) : DmgVec :=
  fun i => fm.damagePerShot.base i / max (vsum fm.damagePerShot.base) (1/100)

/-- Line 128: `damagePerShot_bonus = weights * bonusDamagePerShot_m["additive_base"]`. -/
def FireMode.damagePerShot_bonus (fm : FireMode) : DmgVec :=
  fun i => fm.weights i * fm.bonusDamagePerShot_m.additive_base

/-- Lines 130-133: the value assigned to `damagePerShot.modded`. -/
def FireMode.dmgModded (fm : FireMode) : DmgVec :=
  fun i =>
    (fm.damagePerShot.base i + fm.damagePerShot_bonus i) * (1 + fm.damagePerShot_m.base)
      * fm.damagePerShot_m.multishot_multiplier * fm.damagePerShot_m.final_multiplier

/-- Line 136: `total_base_damage = sum(damagePerShot.modded)` — the sum of the
whole modded 20-vector, physical and elemental slots alike. -/
def FireMode.total_base_damage (fm : FireMode) : ℚ := vsum fm.dmgModded

/-- Lines 137-144: the value of `elementalDamagePerShot.modded` after the
seven slot assignments; slots 7-19 keep their previous values. -/
def FireMode.elemModded (fm : FireMode) : DmgVec :=
  fun i =>
    if i = 0 then fm.dmgModded 0 * fm.impact_m.base
    else if i = 1 then fm.dmgModded 1 * fm.puncture_m.base
    else if i = 2 then fm.dmgModded 2 * fm.slash_m.base
    else if i = 3 then fm.total_base_damage * fm.heat_m.base
    else if i = 4 then fm.total_base_damage * fm.cold_m.base
    else if i = 5 then fm.total_base_damage * fm.electric_m.base
    else if i = 6 then fm.total_base_damage * fm.toxin_m.base
    else fm.elementalDamagePerShot.modded i

/-- Line 146: `quanta = (total_base_damage + sum(elementalDamagePerShot.modded)) / 16`. -/
def FireMode.quanta (fm : FireMode) : ℚ :=
  (fm.total_base_damage + vsum fm.elemModded) / 16

/-- Line 147: `np.round(damagePerShot.modded / quanta, 0) * quanta`. -/
def FireMode.dmgQuantized (fm : FireMode) : DmgVec :=
  fun i => (pyRound (fm.dmgModded i / fm.quanta) : ℚ) * fm.quanta

/-- Line 148: `np.round(elementalDamagePerShot.modded / quanta, 0) * quanta`. -/
def FireMode.elemQuantized (fm : FireMode) : DmgVec :=
  fun i => (pyRound (fm.elemModded i / fm.quanta) : ℚ) * fm.quanta

/-- Lines 153-155: the value assigned to `criticalChance.modded`. -/
def FireMode.ccModded (fm : FireMode) : ℚ :=
  ((fm.criticalChance.base + fm.criticalChance_m.additive_base) * (1 + fm.criticalChance_m.base)
      + fm.criticalChance_m.additive_final) * fm.criticalChance_m.deadly_munitions
    + fm.criticalChance_m.covenant

/-- Lines 160-162: the value assigned to `criticalMultiplier.modded`. -/
def FireMode.cmModded (fm : FireMode) : ℚ :=
  ((fm.criticalMultiplier.base + fm.criticalMultiplier_m.additive_base)
        * (1 + fm.criticalMultiplier_m.base) + fm.criticalMultiplier_m.additive_final)
    * fm.criticalMultiplier_m.final_multiplier

/-- Lines 167-169: the value assigned to `procChance.modded`. -/
def FireMode.pcModded (fm : FireMode) : ℚ :=
  (fm.procChance.base + fm.procChance_m.additive_base)
    * ((1 + fm.procChance_m.base) + fm.procChance_m.additive_final)
    * fm.procChance_m.final_multiplier * fm.procChance_m.multishot_multiplier

/-- Line 170: the un-normalized proc weights,
`damagePerShot.modded + elementalDamagePerShot.modded`. -/
def FireMode.rawProcWeights (fm : FireMode) : DmgVec :=
  fun i => fm.dmgModded i + fm.elemModded i

/-- Line 172: `tot_weight = sum(procProbabilities)` before normalization. -/
def FireMode.tot_weight (fm : FireMode) : ℚ := vsum fm.rawProcWeights

/-- Line 173: the normalized proc probabilities,
`procProbabilities *= 1/tot_weight if tot_weight > 0 else 0`. -/
def FireMode.procProbs (fm : FireMode) : DmgVec :=
  fun i => fm.rawProcWeights i * (if 0 < fm.tot_weight then 1 / fm.tot_weight else 0)

/-- `FireMode.apply_mods`: the modifier pipeline, translated from `weapon.py`
lines 125-185.  Division by zero follows the `ℚ` convention `x / 0 = 0` (the
quantization step at a zero quantum is outside every claim). -/
def FireMode.apply_mods (fm : FireMode) : FireMode :=
  { fm with
    damagePerShot := { fm.damagePerShot with modded := fm.dmgModded, quantized := fm.dmgQuantized }
    elementalDamagePerShot :=
      { fm.elementalDamagePerShot with modded := fm.elemModded, quantized := fm.elemQuantized }
    criticalChance := { fm.criticalChance with modded := fm.ccModded }
    criticalMultiplier := { fm.criticalMultiplier with modded := fm.cmModded }
    procChance := { fm.procChance with modded := fm.pcModded }
    procProbabilities := fm.procProbs
    procCumulativeProbabilities := fun _ => 0
    -- Other (lines 178-185)
    multishot := { fm.multishot with modded := fm.multishot.base * (1 + fm.multishot_m.base) }
    fireRate := { fm.fireRate with modded := fm.fireRate.base * (1 + fm.fireRate_m.base) }
    reloadTime := { fm.reloadTime with modded := fm.reloadTime.base / (1 + fm.reloadTime_m.base) }
    magazineSize :=
      { fm.magazineSize with modded := fm.magazineSize.base * (1 + fm.magazineSize_m.base) }
    chargeTime := { fm.chargeTime with modded := fm.chargeTime.base / (1 + fm.fireRate_m.base) }
    embedDelay := { fm.embedDelay with modded := fm.embedDelay.base }
    ammoCost :=
      { fm.ammoCost with
        modded := fm.ammoCost.base * max 0 (1 - fm.ammoCost_m.base)
          * max 0 (1 - fm.ammoCost_m.energized_munitions) } }

/-- `get_tier(chance)` with the random draw `r` made explicit:
`int(random() < (chance % 1)) + int(chance)`. -/
def get_tier (chance r : ℚ) : ℤ :=
  (if r < chance - ⌊chance⌋ then 1 else 0) + ratTrunc chance

/-! ### pull_trigger -/

/-- One hit event pushed on the event queue by `pull_trigger`: its timestamp
and whether it is the primary pellet hit or a secondary-effect hit. -/
structure Hit where
  time : ℚ
  primaryHit : Bool
deriving DecidableEq

/-- One event cluster of `pull_trigger`'s multishot loop body: the primary hit
at `simulation.time + embedDelay.modded`, followed by one hit per
`FireModeEffect` offset by the effect's own `embedDelay`. -/
def FireMode.cluster (fm : FireMode) (simTime : ℚ) : List Hit :=
  let fm_time := simTime + fm.embedDelay.modded
  { time := fm_time, primaryHit := true } ::
    fm.fire_mode_effects.map (fun fme => { time := fme.embedDelay + fm_time, primaryHit := false })

/-- The observable outcome of one `pull_trigger` call: the updated fire-mode
state, the hit events pushed (in push order), and the timestamp of the next
scheduled `pull_trigger` event. -/
structure PullOutcome where
  state : FireMode
  hits : List Hit
  nextPullTime : ℚ

/-- `FireMode.pull_trigger` (lines 187-216), with the uniform random draw `r`
of `get_tier` made explicit.  The reload test reads the just-decremented
magazine `current` (named `current1` here). -/
def FireMode.pull_trigger (fm : FireMode) (simTime r : ℚ) : PullOutcome :=
  let multishot_roll : ℤ := get_tier fm.multishot.modded r
  let current1 : ℚ := fm.magazineSize.current - fm.ammoCost.modded
  let fm1 : FireMode := { fm with magazineSize := { fm.magazineSize with current := current1 } }
  let fm2 : FireMode :=
    if fm.trigger = "HELD" then
      { fm1 with
        damagePerShot_m :=
          { fm1.damagePerShot_m with multishot_multiplier := (multishot_roll : ℚ) }
        procChance_m :=
          { fm1.procChance_m with multishot_multiplier := (multishot_roll : ℚ) } }
    else fm1
  let multishot : ℤ := if fm.trigger = "HELD" then 1 else multishot_roll
  let hits : List Hit := (List.replicate multishot.toNat (fm.cluster simTime)).flatten
  if 0 < current1 then
    { state := fm2
      hits := hits
      nextPullTime := simTime + 1 / fm.fireRate.modded + fm.chargeTime.modded }
  else
    { state := { fm2 with magazineSize := { fm2.magazineSize with current := fm.magazineSize.modded } }
      hits := hits
      nextPullTime := simTime + max fm.reloadTime.modded (1 / fm.fireRate.modded) + fm.chargeTime.modded }

/-! ### Construction from a data record -/

/-- The data record of one secondary effect, with `Option` for the optional
keys read through `data.get`. -/
structure FMEData where
  damagePerShot : Option DmgVec
  criticalChance : Option ℚ
  criticalMultiplier : Option ℚ
  procChance : Option ℚ
  multishot : Option ℚ
  embedDelay : Option ℚ
  forcedProc : Option (List ℕ)

/-- `FireModeEffect.__init__` (lines 229-236) against a fully-built parent
fire mode: own record values when present, parent attribute objects (for
damage/crit/status), the constant `1` (multishot) and `0` (embedDelay)
otherwise. -/
def FireModeEffect.init (fm : FireMode) (d : FMEData) : FireModeEffect :=
  { damagePerShot :=
      match d.damagePerShot with
      | some v => Sum.inl v
      | none => Sum.inr fm.damagePerShot
    criticalChance :=
      match d.criticalChance with
      | some c => Sum.inl c
      | none => Sum.inr fm.criticalChance
    criticalMultiplier :=
      match d.criticalMultiplier with
      | some c => Sum.inl c
      | none => Sum.inr fm.criticalMultiplier
    procChance :=
      match d.procChance with
      | some c => Sum.inl c
      | none => Sum.inr fm.procChance
    multishot := d.multishot.getD 1
    embedDelay := d.embedDelay.getD 0
    forcedProc := d.forcedProc.getD [] }

/-- The data record of one fire mode, with `Option` for the optional keys. -/
structure FireModeData where
  trigger : Option String
  damagePerShot : Option DmgVec
  criticalChance : Option ℚ
  criticalMultiplier : Option ℚ
  procChance : Option ℚ
  magazineSize : Option ℚ
  fireRate : Option ℚ
  reloadTime : Option ℚ
  multishot : Option ℚ
  ammoCost : Option ℚ
  chargeTime : Option ℚ
  embedDelay : Option ℚ
  forcedProc : Option (List ℕ)

/-- `FireMode.__init__` (lines 40-103) for a record without secondary effects.
(With a nonempty `secondaryEffects` mapping the Python constructor faults:
line 45 builds each `FireModeEffect`, whose defaults read parent attributes
that are only assigned from line 50 on; so only the empty case is a
terminating run of the source constructor.)  The critical-multiplier base is
quantized right after the `Parameter` is built (line 54), so its `modded`
still holds the raw value until `apply_mods` overwrites it; `load_mods` and
`apply_mods` run at the end (lines 100-101). -/
def FireMode.init (d : FireModeData) : FireMode :=
  let cm0 := Parameter.ofBase (d.criticalMultiplier.getD 1)
  let fm0 : FireMode :=
    { trigger := d.trigger.getD "AUTO"
      attack_index := 1
      damagePerShot := DamageParameter.ofBase (d.damagePerShot.getD (fun _ => 0))
      elementalDamagePerShot := DamageParameter.ofBase (fun _ => 0)
      criticalChance := Parameter.ofBase (d.criticalChance.getD 0)
      criticalMultiplier :=
        { cm0 with base := (pyRound (cm0.base * (128 - 1/32)) : ℚ) / (128 - 1/32) }
      procChance := Parameter.ofBase (d.procChance.getD 0)
      procProbabilities := fun _ => 0
      procCumulativeProbabilities := fun _ => 0
      magazineSize := ModifyParameter.ofBase (d.magazineSize.getD 100)
      fireRate := Parameter.ofBase (d.fireRate.getD 5)
      reloadTime := Parameter.ofBase (d.reloadTime.getD 1)
      multishot := Parameter.ofBase (d.multishot.getD 1)
      ammoCost := Parameter.ofBase (d.ammoCost.getD 1)
      chargeTime := Parameter.ofBase (d.chargeTime.getD 0)
      embedDelay := Parameter.ofBase (d.embedDelay.getD 0)
      forcedProc := d.forcedProc.getD []
      radial := false
      fire_mode_effects := []
      damagePerShot_m := damagePerShotModsDefault
      bonusDamagePerShot_m := bonusDamageModsDefault
      criticalChance_m := criticalChanceModsDefault
      criticalMultiplier_m := criticalMultiplierModsDefault
      procChance_m := procChanceModsDefault
      magazineSize_m := singleModsDefault
      fireRate_m := fireRateModsDefault
      reloadTime_m := singleModsDefault
      multishot_m := singleModsDefault
      heat_m := elemModsDefault
      cold_m := elemModsDefault
      electric_m := elemModsDefault
      toxin_m := elemModsDefault
      blast_m := singleModsDefault
      radiation_m := singleModsDefault
      gas_m := singleModsDefault
      magnetic_m := singleModsDefault
      viral_m := singleModsDefault
      corrosive_m := singleModsDefault
      impact_m := physModsDefault
      puncture_m := physModsDefault
      slash_m := physModsDefault
      statusDuration_m := singleModsDefault
      factionDamage_m := singleModsDefault
      ammoCost_m := ammoCostModsDefault }
  FireMode.apply_mods (FireMode.load_mods fm0)

/-! ### Spec-side definitions

These three definitions follow the specification's words, not the code; they
exist to be compared against the embedded code. -/

/-- The proc-probability vector as the spec describes it: raw weight per slot
is quantized physical plus quantized elemental damage, normalized by the total
weight (0 if the total is 0). -/
def specProcProbabilities (fm : FireMode) : DmgVec :=
  let raw : DmgVec := fun i => fm.damagePerShot.quantized i + fm.elementalDamagePerShot.quantized i
  fun i => raw i * (if 0 < vsum raw then 1 / vsum raw else 0)

/-- The "sum of all physical modded damage" as the spec describes it: the sum
of the impact/puncture/slash slots (indices 0-2) only. -/
def physTotal (v : DmgVec) : ℚ := v 0 + v 1 + v 2

/-- The multishot tier roll as the spec words it:
`floor(x) + 1 if uniform_random() < fractional_part(x) else floor(x)`. -/
def specTier (x r : ℚ) : ℤ := if r < x - ⌊x⌋ then ⌊x⌋ + 1 else ⌊x⌋

/-! ### Concrete fixtures -/

/-- The all-zero damage vector. -/
def zeroVec : DmgVec := fun _ => 0

/-- A damage vector with impact 1 and puncture 2: `[1, 2, 0, ..., 0]`. -/
def vec12 : DmgVec := fun i => if i = 0 then 1 else if i = 1 then 2 else 0

/-- A damage vector with heat 16: `[0, 0, 0, 16, 0, ..., 0]`. -/
def vecHeat : DmgVec := fun i => if i = 3 then 16 else 0

/-- A baseline concrete fire mode: every parameter at the constructor's
missing-data default, every modifier bucket at its construction default. -/
def baseFM : FireMode :=
  { trigger := "AUTO"
    attack_index := 1
    damagePerShot := DamageParameter.ofBase zeroVec
    elementalDamagePerShot := DamageParameter.ofBase zeroVec
    criticalChance := Parameter.ofBase 0
    criticalMultiplier := Parameter.ofBase 1
    procChance := Parameter.ofBase 0
    procProbabilities := zeroVec
    procCumulativeProbabilities := zeroVec
    magazineSize := ModifyParameter.ofBase 100
    fireRate := Parameter.ofBase 5
    reloadTime := Parameter.ofBase 1
    multishot := Parameter.ofBase 1
    ammoCost := Parameter.ofBase 1
    chargeTime := Parameter.ofBase 0
    embedDelay := Parameter.ofBase 0
    forcedProc := []
    radial := false
    fire_mode_effects := []
    damagePerShot_m := damagePerShotModsDefault
    bonusDamagePerShot_m := bonusDamageModsDefault
    criticalChance_m := criticalChanceModsDefault
    criticalMultiplier_m := criticalMultiplierModsDefault
    procChance_m := procChanceModsDefault
    magazineSize_m := singleModsDefault
    fireRate_m := fireRateModsDefault
    reloadTime_m := singleModsDefault
    multishot_m := singleModsDefault
    heat_m := elemModsDefault
    cold_m := elemModsDefault
    electric_m := elemModsDefault
    toxin_m := elemModsDefault
    blast_m := singleModsDefault
    radiation_m := singleModsDefault
    gas_m := singleModsDefault
    magnetic_m := singleModsDefault
    viral_m := singleModsDefault
    corrosive_m := singleModsDefault
    impact_m := physModsDefault
    puncture_m := physModsDefault
    slash_m := physModsDefault
    statusDuration_m := singleModsDefault
    factionDamage_m := singleModsDefault
    ammoCost_m := ammoCostModsDefault }

/-- `baseFM` with base damage `[1, 2, 0, ...]` (positive total). -/
def fmPos : FireMode := { baseFM with damagePerShot := DamageParameter.ofBase vec12 }

/-- `baseFM` with magazine base 7 but current ammo 5, as after two shots. -/
def fmMag : FireMode := { baseFM with magazineSize := { base := 7, modded := 7, current := 5 } }

/-- `baseFM` with base multishot 3. -/
def fmMulti : FireMode := { baseFM with multishot := { base := 3, modded := 3 } }

/-- `baseFM` with base damage `[0, 0, 0, 16, 0, ...]` (heat-only) and a +100%
heat modifier. -/
def fmHeat : FireMode :=
  { baseFM with
    damagePerShot := DamageParameter.ofBase vecHeat
    heat_m := { base := 1, uncombinable := 0 } }

/-- `baseFM` with a HELD trigger. -/
def fmHeld : FireMode := { baseFM with trigger := "HELD" }

/-- A secondary-effect record whose every key is absent. -/
def emptyFMEData : FMEData := ⟨none, none, none, none, none, none, none⟩

/-- A secondary-effect record carrying only `criticalChance = 2`. -/
def ccFMEData : FMEData := ⟨none, some 2, none, none, none, none, none⟩

/-! ### Helper lemmas -/

theorem vsum_mul_right (v : DmgVec) (c : ℚ) : vsum (fun i => v i * c) = vsum v * c := by
  simp [vsum, Finset.sum_mul]

/-! ### Claims -/

/-- C3 (counterexample): the claim says `reset()` "does not reset the
magazine's `current` ammo field", but `ModifyParameter.reset` sets
`current := modded` right after `modded := base`: on a fire mode with magazine
base 7 and current ammo 5, `reset` changes `current` from 5 to 7. -/
theorem C3_counterexample :
    (FireMode.reset fmMag).magazineSize.current ≠ fmMag.magazineSize.current := by
  show (7:ℚ) ≠ 5
  norm_num

/-- C3 (amended): `reset()` restores every derived (modded/quantized) field of
every parameter to its base value and leaves every modifier bucket unchanged;
however it also resets the magazine's `current` ammo field, to the freshly
restored modded value (the base magazine size). -/
theorem C3_reset_restores_bases (fm : FireMode) :
    (FireMode.reset fm).damagePerShot.modded = fm.damagePerShot.base ∧
    (FireMode.reset fm).damagePerShot.quantized = fm.damagePerShot.base ∧
    (FireMode.reset fm).elementalDamagePerShot.modded = fm.elementalDamagePerShot.base ∧
    (FireMode.reset fm).elementalDamagePerShot.quantized = fm.elementalDamagePerShot.base ∧
    (FireMode.reset fm).criticalChance.modded = fm.criticalChance.base ∧
    (FireMode.reset fm).criticalMultiplier.modded = fm.criticalMultiplier.base ∧
    (FireMode.reset fm).procChance.modded = fm.procChance.base ∧
    (FireMode.reset fm).magazineSize.modded = fm.magazineSize.base ∧
    (FireMode.reset fm).fireRate.modded = fm.fireRate.base ∧
    (FireMode.reset fm).reloadTime.modded = fm.reloadTime.base ∧
    (FireMode.reset fm).multishot.modded = fm.multishot.base ∧
    (FireMode.reset fm).ammoCost.modded = fm.ammoCost.base ∧
    (FireMode.reset fm).chargeTime.modded = fm.chargeTime.base ∧
    (FireMode.reset fm).embedDelay.modded = fm.embedDelay.base ∧
    (FireMode.reset fm).damagePerShot_m = fm.damagePerShot_m ∧
    (FireMode.reset fm).bonusDamagePerShot_m = fm.bonusDamagePerShot_m ∧
    (FireMode.reset fm).criticalChance_m = fm.criticalChance_m ∧
    (FireMode.reset fm).criticalMultiplier_m = fm.criticalMultiplier_m ∧
    (FireMode.reset fm).procChance_m = fm.procChance_m ∧
    (FireMode.reset fm).magazineSize_m = fm.magazineSize_m ∧
    (FireMode.reset fm).fireRate_m = fm.fireRate_m ∧
    (FireMode.reset fm).reloadTime_m = fm.reloadTime_m ∧
    (FireMode.reset fm).multishot_m = fm.multishot_m ∧
    (FireMode.reset fm).heat_m = fm.heat_m ∧
    (FireMode.reset fm).cold_m = fm.cold_m ∧
    (FireMode.reset fm).electric_m = fm.electric_m ∧
    (FireMode.reset fm).toxin_m = fm.toxin_m ∧
    (FireMode.reset fm).blast_m = fm.blast_m ∧
    (FireMode.reset fm).radiation_m = fm.radiation_m ∧
    (FireMode.reset fm).gas_m = fm.gas_m ∧
    (FireMode.reset fm).magnetic_m = fm.magnetic_m ∧
    (FireMode.reset fm).viral_m = fm.viral_m ∧
    (FireMode.reset fm).corrosive_m = fm.corrosive_m ∧
    (FireMode.reset fm).impact_m = fm.impact_m ∧
    (FireMode.reset fm).puncture_m = fm.puncture_m ∧
    (FireMode.reset fm).slash_m = fm.slash_m ∧
    (FireMode.reset fm).statusDuration_m = fm.statusDuration_m ∧
    (FireMode.reset fm).factionDamage_m = fm.factionDamage_m ∧
    (FireMode.reset fm).ammoCost_m = fm.ammoCost_m ∧
    (FireMode.reset fm).magazineSize.current = fm.magazineSize.base :=
  ⟨rfl, rfl, rfl, rfl, rfl, rfl, rfl, rfl, rfl, rfl, rfl, rfl, rfl, rfl, rfl, rfl, rfl, rfl,
   rfl, rfl, rfl, rfl, rfl, rfl, rfl, rfl, rfl, rfl, rfl, rfl, rfl, rfl, rfl, rfl, rfl, rfl,
   rfl, rfl, rfl, rfl⟩

/-- C9 (counterexample): the claim's rule uses `floor(x)`, but `get_tier` uses
Python `int()`, which truncates toward zero: at `x = -5/2` and `r = 3/4` the
code returns `-2` while the claimed rule returns `floor(-5/2) = -3`. -/
theorem C9_counterexample : get_tier (-5/2) (3/4) ≠ specTier (-5/2) (3/4) := by
  have hc : (⌈(-(5/2) : ℚ)⌉ : ℤ) = -2 := by
    rw [Int.ceil_eq_iff]
    constructor <;> norm_num
  norm_num [get_tier, specTier, ratTrunc, hc]

/-- C9 (amended): for every nonnegative input `x` and every draw `r`, the
multishot tier roll equals the tiered stochastic rule
`floor(x) + 1 if r < fractional_part(x) else floor(x)`; for negative `x` the
code truncates toward zero instead of flooring. -/
theorem C9_tier_rule (x r : ℚ) (hx : 0 ≤ x) : get_tier x r = specTier x r := by
  unfold get_tier specTier ratTrunc
  rw [if_pos hx]
  split_ifs <;> omega

/-- C9 witness: the amended rule at `x = 7/3`, `r = 1/4`. -/
theorem C9_tier_rule_witness : get_tier (7/3) (1/4) = specTier (7/3) (1/4) :=
  C9_tier_rule (7/3) (1/4) (by norm_num)

/-- C7: for every data record, the stored critical-multiplier base equals
`round(raw * (128 - 1/32)) / (128 - 1/32)` where `raw` is the record's value
(default 1); the quantization happens once at construction, before any
modifier is applied (with default modifiers the modded value equals the
quantized base, un-re-quantized), and `reset()` leaves the quantized base
unchanged. -/
theorem C7_critmult_quantized_once (d : FireModeData) :
    (FireMode.init d).criticalMultiplier.base
        = (pyRound ((d.criticalMultiplier.getD 1) * (128 - 1/32)) : ℚ) / (128 - 1/32) ∧
    (FireMode.init d).criticalMultiplier.modded = (FireMode.init d).criticalMultiplier.base ∧
    (FireMode.reset (FireMode.init d)).criticalMultiplier.base
        = (FireMode.init d).criticalMultiplier.base := by
  refine ⟨rfl, ?_, rfl⟩
  show FireMode.cmModded _ = _
  simp [FireMode.cmModded, FireMode.init, FireMode.load_mods, FireMode.apply_mods,
    Parameter.ofBase, criticalMultiplierModsDefault]

/-- C1 (counterexample): the claim builds the proc weights from the quantized
damage vectors, but line 170 uses the modded (un-quantized) vectors: on base
damage `[1, 2, 0, ...]` with no mods the code's slot-0 probability is
`1/3` while the quantized composition gives `(15/16) / 3 = 5/16`. -/
theorem C1_counterexample :
    (FireMode.apply_mods fmPos).procProbabilities 0
      ≠ specProcProbabilities (FireMode.apply_mods fmPos) 0 := by
  have h1 : (FireMode.apply_mods fmPos).procProbabilities 0 = 1/3 := by
    simp +decide [FireMode.apply_mods, FireMode.procProbs, FireMode.rawProcWeights,
      FireMode.tot_weight, FireMode.elemModded, FireMode.dmgModded, FireMode.total_base_damage,
      FireMode.damagePerShot_bonus, FireMode.weights, fmPos, baseFM, DamageParameter.ofBase,
      zeroVec, vec12, vsum, Fin.sum_univ_succ, damagePerShotModsDefault, bonusDamageModsDefault,
      physModsDefault, elemModsDefault]
    norm_num
  have h2 : specProcProbabilities (FireMode.apply_mods fmPos) 0 = 5/16 := by
    simp +decide [specProcProbabilities, FireMode.apply_mods, FireMode.dmgQuantized,
      FireMode.elemQuantized, FireMode.quanta, FireMode.elemModded, FireMode.dmgModded,
      FireMode.total_base_damage, FireMode.damagePerShot_bonus, FireMode.weights, fmPos, baseFM,
      DamageParameter.ofBase, zeroVec, vec12, vsum, Fin.sum_univ_succ, damagePerShotModsDefault,
      bonusDamageModsDefault, physModsDefault, elemModsDefault, pyRound]
    norm_num [Int.fract]
  rw [h1, h2]
  norm_num

/-- C1 (amended): after `apply_mods`, the raw proc-probability weight of every
damage slot equals the slot's modded physical damage plus its modded elemental
damage (the un-quantized vectors), and the weights are normalized by the total
weight, yielding 0 when the total is 0. -/
theorem C1_proc_weights_from_modded (fm : FireMode) :
    (FireMode.apply_mods fm).procProbabilities = fun i =>
      ((FireMode.apply_mods fm).damagePerShot.modded i
          + (FireMode.apply_mods fm).elementalDamagePerShot.modded i)
        * (if 0 < fm.tot_weight then 1 / fm.tot_weight else 0) := rfl

/-- C2 (counterexample): the claim takes `total_base_damage` to be the sum of
the physical slots (indices 0-2) only, but line 136 sums the whole modded
damage vector: on a heat-only weapon (base damage 16 in slot 3) with a +100%
heat modifier, the code sets elemental slot 3 to `16`, while the claimed
physical-only total `0` would set it to `0`. -/
theorem C2_counterexample :
    (FireMode.apply_mods fmHeat).elementalDamagePerShot.modded 3
      ≠ physTotal (FireMode.apply_mods fmHeat).damagePerShot.modded * fmHeat.heat_m.base := by
  have h1 : (FireMode.apply_mods fmHeat).elementalDamagePerShot.modded 3 = 16 := by
    simp +decide [FireMode.apply_mods, FireMode.elemModded, FireMode.dmgModded,
      FireMode.total_base_damage, FireMode.damagePerShot_bonus, FireMode.weights, fmHeat, baseFM,
      DamageParameter.ofBase, zeroVec, vecHeat, vsum, Fin.sum_univ_succ, damagePerShotModsDefault,
      bonusDamageModsDefault, physModsDefault, elemModsDefault]
  have h2 : physTotal (FireMode.apply_mods fmHeat).damagePerShot.modded * fmHeat.heat_m.base
      = 0 := by
    simp +decide [physTotal, FireMode.apply_mods, FireMode.dmgModded, FireMode.total_base_damage,
      FireMode.damagePerShot_bonus, FireMode.weights, fmHeat, baseFM, DamageParameter.ofBase,
      zeroVec, vecHeat, vsum, Fin.sum_univ_succ, damagePerShotModsDefault, bonusDamageModsDefault,
      physModsDefault, elemModsDefault]
  rw [h1, h2]
  norm_num

/-- C2 (amended): in step 2 of `apply_mods`, each of the elemental slots 3-6
(heat/cold/electric/toxin) is set to `total_base_damage * type_modifier`,
where `total_base_damage` is the sum of the whole modded damage vector
(physical and innate elemental slots alike); the same quantity is the first
summand of the quantum `(T + E) / 16` used in the quantization step. -/
theorem C2_total_base_damage_sums_all_slots (fm : FireMode) :
    ((FireMode.apply_mods fm).elementalDamagePerShot.modded 3
        = vsum (FireMode.apply_mods fm).damagePerShot.modded * fm.heat_m.base) ∧
    ((FireMode.apply_mods fm).elementalDamagePerShot.modded 4
        = vsum (FireMode.apply_mods fm).damagePerShot.modded * fm.cold_m.base) ∧
    ((FireMode.apply_mods fm).elementalDamagePerShot.modded 5
        = vsum (FireMode.apply_mods fm).damagePerShot.modded * fm.electric_m.base) ∧
    ((FireMode.apply_mods fm).elementalDamagePerShot.modded 6
        = vsum (FireMode.apply_mods fm).damagePerShot.modded * fm.toxin_m.base) ∧
    ((FireMode.apply_mods fm).damagePerShot.quantized = fun i =>
        (pyRound ((FireMode.apply_mods fm).damagePerShot.modded i
            / ((vsum (FireMode.apply_mods fm).damagePerShot.modded
                + vsum (FireMode.apply_mods fm).elementalDamagePerShot.modded) / 16)) : ℚ)
          * ((vsum (FireMode.apply_mods fm).damagePerShot.modded
              + vsum (FireMode.apply_mods fm).elementalDamagePerShot.modded) / 16)) ∧
    ((FireMode.apply_mods fm).elementalDamagePerShot.quantized = fun i =>
        (pyRound ((FireMode.apply_mods fm).elementalDamagePerShot.modded i
            / ((vsum (FireMode.apply_mods fm).damagePerShot.modded
                + vsum (FireMode.apply_mods fm).elementalDamagePerShot.modded) / 16)) : ℚ)
          * ((vsum (FireMode.apply_mods fm).damagePerShot.modded
              + vsum (FireMode.apply_mods fm).elementalDamagePerShot.modded) / 16)) := by
  refine ⟨?_, ?_, ?_, ?_, rfl, rfl⟩ <;>
    simp +decide [FireMode.apply_mods, FireMode.elemModded, FireMode.total_base_damage]

/-- C8: after `apply_mods`, the proc-probability vector sums to exactly 1
whenever the total un-normalized weight is strictly positive, and is the zero
vector when the total weight is 0. -/
theorem C8_proc_probabilities_normalized (fm : FireMode) :
    (0 < fm.tot_weight → vsum (FireMode.apply_mods fm).procProbabilities = 1) ∧
    (fm.tot_weight = 0 → (FireMode.apply_mods fm).procProbabilities = fun _ => 0) := by
  constructor
  · intro h
    have hv : vsum (FireMode.apply_mods fm).procProbabilities
        = vsum fm.rawProcWeights * (1 / fm.tot_weight) := by
      show vsum fm.procProbs = _
      unfold FireMode.procProbs
      rw [if_pos h]
      exact vsum_mul_right _ _
    rw [hv, show vsum fm.rawProcWeights = fm.tot_weight from rfl,
      mul_one_div_cancel (ne_of_gt h)]
  · intro h
    show fm.procProbs = _
    funext i
    unfold FireMode.procProbs
    rw [h, if_neg (lt_irrefl 0), mul_zero]

/-- C8 witness: on base damage `[1, 2, 0, ...]` the total weight is 3 and the
probabilities sum to 1. -/
theorem C8_proc_probabilities_normalized_witness :
    0 < fmPos.tot_weight ∧ vsum (FireMode.apply_mods fmPos).procProbabilities = 1 := by
  have hw : fmPos.tot_weight = 3 := by
    simp +decide [FireMode.tot_weight, FireMode.rawProcWeights, FireMode.elemModded,
      FireMode.dmgModded, FireMode.total_base_damage, FireMode.damagePerShot_bonus,
      FireMode.weights, fmPos, baseFM, DamageParameter.ofBase, zeroVec, vec12, vsum,
      Fin.sum_univ_succ, damagePerShotModsDefault, bonusDamageModsDefault, physModsDefault,
      elemModsDefault]
    norm_num
  exact ⟨by rw [hw]; norm_num,
    (C8_proc_probabilities_normalized fmPos).1 (by rw [hw]; norm_num)⟩

/-- C4: for every `pull_trigger` call, if the decremented magazine ammo is
still positive the next `pull_trigger` event is at
`time + 1/fireRate.modded + chargeTime.modded`; otherwise the magazine is
refilled to `magazineSize.modded` and the next event is at
`time + max(reloadTime.modded, 1/fireRate.modded) + chargeTime.modded`. -/
theorem C4_pull_trigger_scheduling (fm : FireMode) (t r : ℚ) :
    (0 < fm.magazineSize.current - fm.ammoCost.modded →
      (fm.pull_trigger t r).nextPullTime = t + 1 / fm.fireRate.modded + fm.chargeTime.modded) ∧
    (fm.magazineSize.current - fm.ammoCost.modded ≤ 0 →
      (fm.pull_trigger t r).state.magazineSize.current = fm.magazineSize.modded ∧
      (fm.pull_trigger t r).nextPullTime
        = t + max fm.reloadTime.modded (1 / fm.fireRate.modded) + fm.chargeTime.modded) := by
  unfold FireMode.pull_trigger
  constructor
  · intro h
    simp only [if_pos h]
  · intro h
    simp only [if_neg (not_lt.mpr h)]
    exact ⟨trivial, trivial⟩

/-- C4 witness: on the baseline fire mode (magazine 100, ammo cost 1) one pull
leaves 99 > 0 rounds and schedules the next pull at `0 + 1/5 + 0`. -/
theorem C4_pull_trigger_scheduling_witness :
    0 < baseFM.magazineSize.current - baseFM.ammoCost.modded ∧
    (baseFM.pull_trigger 0 0).nextPullTime
      = 0 + 1 / baseFM.fireRate.modded + baseFM.chargeTime.modded :=
  ⟨by norm_num [baseFM, ModifyParameter.ofBase, Parameter.ofBase],
   (C4_pull_trigger_scheduling baseFM 0 0).1
     (by norm_num [baseFM, ModifyParameter.ofBase, Parameter.ofBase])⟩

/-- C5: for every `pull_trigger` call on a HELD-trigger fire mode, the
multishot roll is written into the `multishot_multiplier` entry of both the
damage and status-chance buckets, exactly one event cluster is fired (one
primary hit plus one hit per `FireModeEffect`), and (when no reload is
triggered) the magazine is decremented exactly once by `ammoCost.modded`,
independently of the rolled multishot value `r`. -/
theorem C5_held_trigger_single_cluster (fm : FireMode) (t r : ℚ)
    (hH : fm.trigger = "HELD") :
    (fm.pull_trigger t r).state.damagePerShot_m.multishot_multiplier
        = ((get_tier fm.multishot.modded r : ℤ) : ℚ) ∧
    (fm.pull_trigger t r).state.procChance_m.multishot_multiplier
        = ((get_tier fm.multishot.modded r : ℤ) : ℚ) ∧
    (fm.pull_trigger t r).hits = fm.cluster t ∧
    (fm.pull_trigger t r).hits.length = 1 + fm.fire_mode_effects.length ∧
    (0 < fm.magazineSize.current - fm.ammoCost.modded →
      (fm.pull_trigger t r).state.magazineSize.current
        = fm.magazineSize.current - fm.ammoCost.modded) := by
  unfold FireMode.pull_trigger
  simp only [hH, eq_self_iff_true, if_true]
  refine ⟨?_, ?_, ?_, ?_, ?_⟩
  · split_ifs <;> rfl
  · split_ifs <;> rfl
  · split_ifs <;> simp [Int.toNat_one, List.replicate]
  · split_ifs <;> simp [Int.toNat_one, List.replicate, FireMode.cluster, Nat.add_comm]
  · intro h
    simp only [if_pos h]

/-- C5 witness: the HELD baseline fire mode at time 0 with draw 1/2. -/
theorem C5_held_trigger_single_cluster_witness :
    fmHeld.trigger = "HELD" ∧
    ((fmHeld.pull_trigger 0 (1/2)).state.damagePerShot_m.multishot_multiplier
        = ((get_tier fmHeld.multishot.modded (1/2) : ℤ) : ℚ) ∧
    (fmHeld.pull_trigger 0 (1/2)).state.procChance_m.multishot_multiplier
        = ((get_tier fmHeld.multishot.modded (1/2) : ℤ) : ℚ) ∧
    (fmHeld.pull_trigger 0 (1/2)).hits = fmHeld.cluster 0 ∧
    (fmHeld.pull_trigger 0 (1/2)).hits.length = 1 + fmHeld.fire_mode_effects.length ∧
    (0 < fmHeld.magazineSize.current - fmHeld.ammoCost.modded →
      (fmHeld.pull_trigger 0 (1/2)).state.magazineSize.current
        = fmHeld.magazineSize.current - fmHeld.ammoCost.modded)) :=
  ⟨rfl, C5_held_trigger_single_cluster fmHeld 0 (1/2) rfl⟩

/-- C6 (counterexample): the claim says a `FireModeEffect` field absent from
its own record defaults to the parent's modded value, but `multishot` defaults
to the constant 1: with parent modded multishot 3 and an empty record the
effect's multishot is 1, not 3. -/
theorem C6_counterexample :
    (FireModeEffect.init fmMulti emptyFMEData).multishot ≠ fmMulti.multishot.modded := by
  show (1 : ℚ) ≠ 3
  norm_num

/-- C6 (amended): for every `FireModeEffect` constructed from an effect
record, the damage, critical-chance, critical-multiplier and status-chance
fields equal the record's own value when present and otherwise hold the parent
fire mode's parameter object (base plus modded, not the bare modded value),
while `multishot` defaults to the constant 1 and `embedDelay` to the constant
0 when absent. -/
theorem C6_effect_field_defaults (fm : FireMode) (d : FMEData) :
    (∀ v, d.damagePerShot = some v → (FireModeEffect.init fm d).damagePerShot = Sum.inl v) ∧
    (d.damagePerShot = none →
      (FireModeEffect.init fm d).damagePerShot = Sum.inr fm.damagePerShot) ∧
    (∀ c, d.criticalChance = some c → (FireModeEffect.init fm d).criticalChance = Sum.inl c) ∧
    (d.criticalChance = none →
      (FireModeEffect.init fm d).criticalChance = Sum.inr fm.criticalChance) ∧
    (∀ c, d.criticalMultiplier = some c →
      (FireModeEffect.init fm d).criticalMultiplier = Sum.inl c) ∧
    (d.criticalMultiplier = none →
      (FireModeEffect.init fm d).criticalMultiplier = Sum.inr fm.criticalMultiplier) ∧
    (∀ c, d.procChance = some c → (FireModeEffect.init fm d).procChance = Sum.inl c) ∧
    (d.procChance = none → (FireModeEffect.init fm d).procChance = Sum.inr fm.procChance) ∧
    (FireModeEffect.init fm d).multishot = d.multishot.getD 1 ∧
    (FireModeEffect.init fm d).embedDelay = d.embedDelay.getD 0 := by
  refine ⟨fun v h => ?_, fun h => ?_, fun c h => ?_, fun h => ?_, fun c h => ?_, fun h => ?_,
    fun c h => ?_, fun h => ?_, rfl, rfl⟩ <;>
    simp [FireModeEffect.init, h]

/-- C6 witness: a record carrying only `criticalChance = 2` yields an effect
whose critical chance is the plain value 2. -/
theorem C6_effect_field_defaults_witness :
    ccFMEData.criticalChance = some 2 ∧
    (FireModeEffect.init baseFM ccFMEData).criticalChance = Sum.inl 2 :=
  ⟨rfl, (C6_effect_field_defaults baseFM ccFMEData).2.2.1 2 rfl⟩

/-- C10: on a fire mode whose every modifier bucket holds its construction
defaults and whose base damage has positive sum, `apply_mods` is the identity
on all scalar stats: each modded value equals its base value. -/
theorem C10_apply_mods_identity_on_defaults (fm : FireMode)
    (h1 : fm.damagePerShot_m = damagePerShotModsDefault)
    (h2 : fm.bonusDamagePerShot_m = bonusDamageModsDefault)
    (h3 : fm.criticalChance_m = criticalChanceModsDefault)
    (h4 : fm.criticalMultiplier_m = criticalMultiplierModsDefault)
    (h5 : fm.procChance_m = procChanceModsDefault)
    (h6 : fm.magazineSize_m = singleModsDefault)
    (h7 : fm.fireRate_m = fireRateModsDefault)
    (h8 : fm.reloadTime_m = singleModsDefault)
    (h9 : fm.multishot_m = singleModsDefault)
    (h10 : fm.heat_m = elemModsDefault)
    (h11 : fm.cold_m = elemModsDefault)
    (h12 : fm.electric_m = elemModsDefault)
    (h13 : fm.toxin_m = elemModsDefault)
    (h14 : fm.blast_m = singleModsDefault)
    (h15 : fm.radiation_m = singleModsDefault)
    (h16 : fm.gas_m = singleModsDefault)
    (h17 : fm.magnetic_m = singleModsDefault)
    (h18 : fm.viral_m = singleModsDefault)
    (h19 : fm.corrosive_m = singleModsDefault)
    (h20 : fm.impact_m = physModsDefault)
    (h21 : fm.puncture_m = physModsDefault)
    (h22 : fm.slash_m = physModsDefault)
    (h23 : fm.statusDuration_m = singleModsDefault)
    (h24 : fm.factionDamage_m = singleModsDefault)
    (h25 : fm.ammoCost_m = ammoCostModsDefault)
    (hpos : 0 < vsum fm.damagePerShot.base) :
    (FireMode.apply_mods fm).damagePerShot.modded = fm.damagePerShot.base ∧
    (FireMode.apply_mods fm).criticalChance.modded = fm.criticalChance.base ∧
    (FireMode.apply_mods fm).criticalMultiplier.modded = fm.criticalMultiplier.base ∧
    (FireMode.apply_mods fm).procChance.modded = fm.procChance.base ∧
    (FireMode.apply_mods fm).multishot.modded = fm.multishot.base ∧
    (FireMode.apply_mods fm).fireRate.modded = fm.fireRate.base ∧
    (FireMode.apply_mods fm).reloadTime.modded = fm.reloadTime.base ∧
    (FireMode.apply_mods fm).magazineSize.modded = fm.magazineSize.base ∧
    (FireMode.apply_mods fm).chargeTime.modded = fm.chargeTime.base ∧
    (FireMode.apply_mods fm).embedDelay.modded = fm.embedDelay.base ∧
    (FireMode.apply_mods fm).ammoCost.modded = fm.ammoCost.base := by
  constructor
  · funext i
    simp [FireMode.apply_mods, FireMode.dmgModded, FireMode.damagePerShot_bonus,
      FireMode.weights, h1, h2, damagePerShotModsDefault, bonusDamageModsDefault]
  refine ⟨?_, ?_, ?_, ?_, ?_, ?_, ?_, ?_, ?_, ?_⟩ <;>
    simp [FireMode.apply_mods, FireMode.ccModded, FireMode.cmModded, FireMode.pcModded,
      h3, h4, h5, h6, h7, h8, h9, h25, criticalChanceModsDefault, criticalMultiplierModsDefault,
      procChanceModsDefault, singleModsDefault, fireRateModsDefault, ammoCostModsDefault]

/-- C10 witness: on `fmPos` (default buckets, base damage summing to 3) the
modded multishot equals its base. -/
theorem C10_apply_mods_identity_on_defaults_witness :
    0 < vsum fmPos.damagePerShot.base ∧
    (FireMode.apply_mods fmPos).multishot.modded = fmPos.multishot.base := by
  have hs : vsum fmPos.damagePerShot.base = 3 := by
    simp +decide [fmPos, baseFM, DamageParameter.ofBase, vec12, vsum, Fin.sum_univ_succ]
    norm_num
  exact ⟨by rw [hs]; norm_num,
    (C10_apply_mods_identity_on_defaults fmPos rfl rfl rfl rfl rfl rfl rfl rfl rfl rfl rfl rfl
      rfl rfl rfl rfl rfl rfl rfl rfl rfl rfl rfl rfl rfl
      (by rw [hs]; norm_num)).2.2.2.2.1⟩

end Simulacrum
